import Mathlib

/-!
Shallow embedding of the transaction construction engine of `core-tx-tester`
(`src/index.js`).  The external collaborators of the script (the ARK crypto
library's key/address derivation, signature creation and verification, the
HTTP lookups for wallet state, network time and prior lock transactions, and
the sources of randomness) are modelled as an explicit environment record;
everything the script itself computes is translated directly.
-/

namespace CoreTx

/-- Truthiness of a possibly-absent JS string (`undefined`, `""` are falsy). -/
def truthyStr : Option String → Bool
  | none => false
  | some s => !s.isEmpty

/-- `a || b` for a possibly-absent string with default `b` (JS semantics). -/
def jsOrStr (a : Option String) (b : String) : String :=
  match a with
  | some s => if s.isEmpty then b else s
  | none => b

/-- `a || b` for possibly-absent strings keeping the result optional. -/
def jsOrOptStr (a b : Option String) : Option String :=
  if truthyStr a then a else b

/-- `a || b` for a possibly-absent JS number (`undefined` and `0` are falsy). -/
def jsOrNat (a : Option Nat) (b : Nat) : Nat :=
  match a with
  | some v => if v = 0 then b else v
  | none => b

/-- One entry of the `testWallets` fixture pool at the bottom of the script
(only the entries that are not commented out in the source). -/
structure TestWallet where
  passphrase : String
  address : String
  publicKey : String
deriving Repr, DecidableEq

/-- `Enums.HtlcLockExpirationType`: 1 = EpochTimestamp, 2 = BlockHeight. -/
inductive HtlcLockExpirationType
  | EpochTimestamp
  | BlockHeight
deriving Repr, DecidableEq

/-- `MagistrateCrypto.Enums.EntityAction`. -/
inductive EntityAction
  | Register
  | Update
  | Resign
deriving Repr, DecidableEq

/-- The entity asset assembled by the `type === 11` branch:
`{ type, subType, ...mapAction[splitInput[4]], data: {} }` plus the
action-specific fields.  A JS field that is never assigned is `none`. -/
structure EntityAsset where
  etype : Option Nat
  subType : Option Nat
  action : Option EntityAction
  registrationId : Option String
  name : Option String
  ipfsData : Option String
deriving Repr, DecidableEq

/-- `mapAction` of the entity branch; an unrecognized key yields `undefined`,
and spreading `undefined` adds no `action` field at all. -/
def mapAction : String → Option EntityAction
  | "register" => some .Register
  | "update" => some .Update
  | "resign" => some .Resign
  | _ => none

/-- The entity branch of `main` (src/index.js lines 312-333): populate the
asset from the positional prompt tokens `splitInput`.  `parseInt` on the
numeric positions is modelled by `String.toNat?`. -/
def buildEntityAsset (input : List String) : EntityAsset :=
  let act := input[4]?.bind mapAction
  let base : EntityAsset :=
    { etype := input[2]?.bind String.toNat?
      subType := input[3]?.bind String.toNat?
      action := act
      registrationId := none
      name := none
      ipfsData := none }
  match act with
  | some .Register => { base with name := input[5]?, ipfsData := input[6]? }
  | some .Update => { base with registrationId := input[5]?, ipfsData := input[6]? }
  | some .Resign => { base with registrationId := input[5]? }
  | none => base

/-- One multi-payment entry (`{ recipientId, amount }`). -/
structure Payment where
  recipientId : String
  amount : String
deriving Repr, DecidableEq

/-- The htlc lock asset (`config.htlc.lock` at the moment it is attached). -/
structure HtlcLockData where
  secretHash : String
  expirationType : HtlcLockExpirationType
  expirationValue : Nat
deriving Repr, DecidableEq

/-- The expiration resolution performed inline for htlc locks
(src/index.js lines 292-297): an epoch-timestamp value smaller than the
network time is treated as a relative offset and shifted; anything else
passes through unchanged. -/
def resolveExpiration (kind : HtlcLockExpirationType) (v t : Nat) : Nat :=
  match kind with
  | .EpochTimestamp => if v < t then v + t else v
  | .BlockHeight => v

/-- `Math.floor(Math.random() * (128 - 64 + 1) + 64)` with
`r = Math.random()`. -/
def countFromRandom (r : ℚ) : Nat :=
  (Int.floor (r * 65 + 64)).toNat

/-- The `testWallets` fixture pool from the bottom of src/index.js, in source
order, keeping only the entries that are not commented out there. -/
def testWallets : List TestWallet := [
  ⟨"2.6-wallet1", "DHKxXag9PjfjHBbPg3HQS5WCaQZdgDf6yi", "02ca35b12058437774b47b0fde00a80c680855403330ce41bdefef6e504661f7ed"⟩,
  ⟨"2.6-wallet2", "DBzGiUk8UVjB2dKCfGRixknB7Ki3Zhqthp", "022668b4d0135cf1d221f1bdf8b6a3a3027bb6adedce32a737553291481e64e490"⟩,
  ⟨"2.6-wallet5", "DQhzMRvVoCYCiZH2iSyuqCTcayz7z4XTKx", "03a23637f079abde0deb5860daa4d26717855af14c6dded8bc401bda4465f4b747"⟩,
  ⟨"2.6-wallet6", "DMSD6fFT1Xcxh4ErYExr5MtGnEuDcYu22m", "0223b47710716023b45d37a2e45d6cafcabcb0541f4c9d57f946f1fa5630c2d026"⟩,
  ⟨"2.6-wallet10", "DEHyKHdtzHqTghfpwaBcvTzLpgPP5AAUgE", "02e7e9b33d19e5aa7ad092e8cdb5c973b44e2c761840c64a1abbe5571bb317d464"⟩,
  ⟨"2.6-wallet11", "DBgA92a616rwVi9GsgYUwBq9Y7dgvZiC41", "028b84f92ec7ec7a019973c9183403304ae9564787b66c242fa899c299617812af"⟩,
  ⟨"2.6-wallet13", "D6JpPhN7BehrhNy7AbSQ2u9mkSZb1k7Ens", "03c2b313282db91aad627c4a52d47bec99eb7c6e637399bb213c8aff652f9b7494"⟩,
  ⟨"2.6-wallet14", "D9sdJ42YtJpXeL7Fa1cTLiciW7FpGYqms4", "03215cb65a51897465c7ee5da007a4506b8451b004749dfe28d4debaa17f6423ea"⟩,
  ⟨"2.6-wallet18", "DAwN6Pp4ErGf69EypErrbtuWFfEMtuSzmE", "02d9bc80a3e40742ba116ebfaeaa7d792ccdfefa3dd24762b3d02a0e3e4e67af6d"⟩,
  ⟨"2.6-wallet19", "DQ6sE3jE9rTFC13e2ndooRdy5YCYinLbPm", "033b93fed9f0f6b84ccb23389d24b564b13d3ad2bb0b9ab7938d4700fb3a80ce03"⟩,
  ⟨"2.6-wallet21", "D6qzeJEGG7rEBem5bNCCZqHtPCBtzsUZpP", "02ecd3dcdd17f36ba7ba0b4ff836b03fff2300f7e324431de39503bf1ef804989a"⟩,
  ⟨"2.6-wallet22", "DNVhLKTPh4LnqhcnkogNS8iSxmsnFG17tC", "02db4da057fe2c0ba1b934fbd4c4415ef54c5dad859cc90fe95e9a875fde8d319f"⟩,
  ⟨"2.6-wallet25", "D7XtDDKh2VrRtz5rtbBicfgSEoEQzEZiNx", "03be3feac3dd670643b5a6ac013f8a3ca37cfc7c8efe3d93dd532c97b6d203300a"⟩,
  ⟨"2.6-wallet26", "D9gQjhu2tDUstXfrbK85zHi23VtAk72qsS", "020c2f9c124dacb9bfd6b9373e35c1c07aab8c6ecd50fa3b2946c79a79a1838687"⟩,
  ⟨"2.6-wallet27", "DKhfkyY4RZyxR7CFjQAeNtGKXAaVEBa9HK", "025921ff2ca02733ee9760ab7ad7b1db628adaee36317db5a0fba9da876c001298"⟩,
  ⟨"2.6-wallet30", "D5taz6B4xDk1LD3jV4fYrUhaKC8DnTtziW", "0352ff2cbd609fdcfc032c18c6a667009044fdb3ed279ceca2092638ac8bd6d06c"⟩,
  ⟨"2.6-wallet31", "DDb3EXY3refv2f5ymMME3hp2DXFqMPzGah", "021d83e48f132a94dba93b216ae7a2b35965bf02818246393164bfee6c36f3f56b"⟩,
  ⟨"2.6-wallet32", "D5HydybffvfuwdbBKQ1dnhiXzNnWq6CgQz", "03b3a212f8eff66c6bfda38090e75a9a82015438048a758b3a7c6d7dc050551455"⟩,
  ⟨"2.6-wallet33", "D9DMKvx8fDyWyAP1EUGs5McBwwv3y5E1Yn", "02ce5dda5b417698c998af763176a8255b507b48929826074e56e60d30a16a622d"⟩,
  ⟨"2.6-wallet35", "DJAmJiuLQGnzXWmH7KvosVLks7hhfxQ8np", "021085fef11deb2a3c3a532f340422f22944dbfa751d22ea62fd8d3801f352c6fd"⟩,
  ⟨"2.6-wallet36", "D752ZwkQZKm5gYYMUZV2tKFFZZaD35MtRa", "03395ce74f7d696edee6e34bc68b7c41348f558ee99766389adcf93e6291d8c37b"⟩,
  ⟨"2.6-wallet38", "D9yDJNK4xHP9Gx27s187Z5XHcNF5YFA94h", "02ff1f60dd2800e1941ae51ff6fb5244bf295bd65eec07c0b82c1ac887b14dcc64"⟩,
  ⟨"2.6-wallet39", "DJuZC2smL8j86bUNrZiNceAubad3zs3drS", "0259d03d5c09ac98fc3fe9731ed007cd36e3fd88dfaf1f8cbbcb5cade349ba51ee"⟩,
  ⟨"2.6-wallet43", "DFmg9q2KqGyretLazvRjWdynJAZbPkZPG2", "0248b2103dc49a8cb78931037fd9e7bafb0cff52c4c106bbc2732b93a9cadbd03a"⟩,
  ⟨"2.6-wallet44", "DMnY8QWLAmsb4wNEjRVvtQsNWF4SbXntxM", "03b88068bce125a3cbe86607d64c138c3c3ef79bf4c1589e7604a3a9bf6f3d5370"⟩,
  ⟨"2.6-wallet45", "DBMn94FxVB36nXgzbmtmfu6jVEGwwHNyNA", "03630de470d97f0c99b60cfc0990b756fb26a7201005ba83b98b1829a0b9627d7a"⟩,
  ⟨"2.6-wallet46", "DUD3r46LtArk4msu6jFrwn1hjxbZoXzX9t", "035950433667d3868c5778de98e41a47b0358afc8f853c87e1ce928315522325cc"⟩,
  ⟨"2.6-wallet47", "DFUNVTBd5zFexBaHkymr4UJqsHeXhPLKUF", "030a5e6f4098883281d9c0d7a7c8eaf0402ed3ab5ea763eef11a197f484aa2b160"⟩,
  ⟨"2.6-wallet49", "D8LiYnmH4DLDyxCLTV7RrqxtCA21pfGkb9", "0387873485f1af537fed3efc2341907aa8b0e9ae1c331bdff9f679277a0a23b7cb"⟩,
  ⟨"2.6-wallet51", "D5iNaf5ZckhdZivPfy6vFvBLeBDJtvDoGo", "0236effbd21efb0aa2b4b06b97b29eaba1532339b741f63be32551297b40ebe893"⟩,
  ⟨"2.6-wallet52", "DPrdeuFDcfMujvYK6n18RBAWgh7hYeiDeZ", "02fdc1278fdf07d5d9cce34f3ea1934e6ff7f38777f49bb600c994515c188e3ecb"⟩,
  ⟨"2.6-wallet53", "D9oaC7bd2YaJYHDdGkUdyAnfpkBrFFKZHy", "034f66df17f860b8b8b0e8172cc284a92b61d451a3388487b284990ccf7e3e933b"⟩,
  ⟨"2.6-wallet54", "DUTUfseKR6qJRjqCuxeH3oRxMr6EFLUxRW", "029b315516f740c9e81fb815c77581870587c1ee251e363c8ef1603d6f6d8fcad0"⟩,
  ⟨"2.6-wallet56", "DE1BK8iL17PiBwo9TUCfkkm1vnUkobBwj8", "028d0f82396ee16371f423042774bb66e07f1306b73d6e25e6c712342b0c54f91c"⟩,
  ⟨"2.6-wallet57", "D7Ba6DnbpPJgqVnQNdN7baRsZs1DKvptMM", "02e4e3d997b9c160e11bc4bf79f011cc7adee0a8d23a244c37c231dedf29f659c6"⟩,
  ⟨"2.6-wallet58", "DUBcre2e5KMykYr6xK56T5BrwkKMZkUF8r", "03b1a962a3a06237776efe6299b9ef95fb81cf5fd2a98a0ec951533df7839f36cc"⟩,
  ⟨"2.6-wallet59", "DPeqoTgBbRhyuEJtMnhqhSAeK32ymMNvjd", "028c430df44c120ed342e37da5ea8992eac6755c43fe6a6a870b02ae81a943ba75"⟩,
  ⟨"2.6-wallet63", "DFLY9huetM6GMrt9EGp6sXDEiC7r3oSYHg", "0318fcac6cd16617340ce11fb7f33c2fb9861dfff8dc5304a7a55b6672154b7cf1"⟩,
  ⟨"2.6-wallet64", "DEszKKqdRipXiF7BDKS2Q4iJwwfzLdwADK", "03a819a41b0f00e80f46ee369633a0fab779841ff44b530ba530169bb8c5b2e242"⟩,
  ⟨"2.6-wallet65", "DF45FRKUYcyUGeZyyTF3sCYJ8VFNXymzhJ", "0246812d42b455b806f8cda6ff3808471a9a362c709d89867b296fb67f29085188"⟩,
  ⟨"2.6-wallet67", "DCqqT4x4on1dsbgUKRWkuZsdZaoohYK6NV", "020611b40c71f84dfe6e41397d02c93512881bd577b6ec8379cdaefab1ab85e0f5"⟩,
  ⟨"2.6-wallet70", "DF5ZYcQsmgDvH6cVQR87xvXapyTUFB1a5R", "03ed92fb37629bf1c7f573e175e27c1a30e31b7e1814d0635845ce4b0d375b655e"⟩,
  ⟨"2.6-wallet72", "DP6k5YTtaeNJUHZ72H6QtugFaHVB5vEBQe", "03abaa80de87f0ce5d41c47374cc09e219f7d4138331c7d60db8ea925967cada5a"⟩,
  ⟨"2.6-wallet76", "D75g1ztcaHi46eUFRnakRryqG7GV9xsgGC", "036c613ec27de52db43f3278cc816b5decabdb24dd0dd1b5b297572474fcbd7079"⟩,
  ⟨"2.6-wallet77", "DSkMiPrEx3YF6ijDjxhwCnbAbriC8sWKEW", "03bff2fb4d7852040cb3510d0daf01464e84788027f6f21eea39e4cc782340dbba"⟩,
  ⟨"2.6-wallet79", "DQZUzueTvUJb5tnhBCziPYaMnzaoui4F57", "021beb69e7303005d4594912b90a7995bd07d24ec382e90584c7d4c8c93e97089a"⟩,
  ⟨"2.6-wallet81", "DHSW3vi66L63xnzRt9PadwSVrb9bCKhgvJ", "025da4ebd800f85e96e31590e162bf2d9f78ae9174655d6bdec201a99bd6580ce2"⟩,
  ⟨"2.6-wallet82", "D6eAmMh6FFynorCSjHS1Qx75rXiN89soa7", "02fa2d048e3beeeb6eb1a307f83e3192f8a244d13ef6dc144caa9677e560b7da67"⟩,
  ⟨"2.6-wallet83", "DGPoaSg15fb6As8bPKBAQrK3nCDpgfYow8", "029fa9f69b302ff49a252e07b4722de81b8105746543085832e9dca293bebe7aff"⟩,
  ⟨"2.6-wallet84", "DKPmC4G1ZEwxb5hZro2sJwRWJ1pQixcK6N", "0317d9ca2a86d583facbc3ab7a0705eafc89199055d46055fb01950c53bc4dfa21"⟩,
  ⟨"2.6-wallet88", "DBBbtnKKDAW84bDjywEmQFLgwf36DxJHZJ", "03c53de42449df160356b7382af168903153ac95491994ab6c278840cd00872c68"⟩,
  ⟨"2.6-wallet89", "DA7GfDKG5zYFeiZ1C4FPJBeTajpYNvXxcC", "0256ee467ae3129537189eb02f4d81d80e428aa5b2a53668f5ce2c6d3a9ca6ab2c"⟩,
  ⟨"2.6-wallet90", "DPAsWQyuxYkiMRzhngKBPTpWb6WWqxdd1T", "034496bb34624c8381391273c228681d982668086fcb994e8817fa1907db4ba2ff"⟩,
  ⟨"2.6-wallet91", "DTv6qvhUK1jks58gAA5YFzShHf3YX9sJVo", "02ec03ed1353c578a79dec8b20f56f253cc929c5b5a9550598592ab6fbccee1a7e"⟩,
  ⟨"2.6-wallet92", "DDwTm5FbgvWugYekvjE1dzantAVKxtGbNo", "025d655104eb6ed75d5fd1b400ba27dad48147a487dd532db12f11bfe5f2be38ca"⟩,
  ⟨"2.6-wallet96", "DM1pVjbHA3Q4dezcwGBjmT54cLYqpx1NtZ", "02a8ac3ca69a778e3da70ac63d408f202317de14bb83b8f75d218b32cea7c345e4"⟩,
  ⟨"2.6-wallet97", "DFEMw6jihEKRJ9CT3k8Rj73PLKDGDyQLU1", "020faf38e8b2b1ec22e8d5de02b9b7f8114ec5c555a8efd96631eb864c1485b778"⟩,
  ⟨"2.6-wallet99", "DMca1DGMxj8w59dWYmji1YC1xLP7AmL6rA", "03959b58145d38e33c9c9eafd0edbde953bdb5afdd45ad4f8bbff7f42c03f1fa89"⟩
]

/-- `testWallets[i % testWallets.length].address` (the fixture-wallet
recipient rotation used by the synthesized multi-payment list). -/
def rotatedRecipient (i : Nat) : String :=
  (testWallets.get ⟨i % testWallets.length, Nat.mod_lt i (by decide)⟩).address

/-- The multi-payment synthesis loop (src/index.js lines 270-277):
`count` payments of amount `"1"` to the rotating fixture recipients. -/
def synthesizePayments (count : Nat) : List Payment :=
  (List.range count).map (fun i => ⟨rotatedRecipient i, "1"⟩)

/-- The tweakable part of the script's `config` object (the fields the build
pipeline reads).  `config.htlc.lock.expiration.value` is *mutable* shared
state and therefore lives in `State`, not here.  `splitInput` carries the
whitespace-split prompt line (used by the entity branch).  `config.ecdsa`
only changes the externally produced signature encoding, so it is not
modelled. -/
structure Config where
  passphrase : Option String
  recipientId : Option String
  startNonce : Option Nat
  expiration : Option Nat
  amount : String
  fee : Option String
  vendorFieldValue : Option String
  vendorFieldRandom : Bool
  secondPassphrase : Option String
  delegateName : Option String
  vote : Option String
  unvote : Option String
  msEnabled : Bool
  msParticipants : List String
  msMin : Nat
  msPassphrases : List (Nat × String)
  ipfs : String
  multiPayments : List Payment
  htlcSecretHash : String
  htlcExpirationType : HtlcLockExpirationType
  htlcClaimLockTransactionId : Option String
  htlcClaimUnlockSecret : String
  htlcRefundLockTransactionId : Option String
  splitInput : List String

/-- A transaction draft as accumulated by the builder calls of `main`.
Unset builder fields are `none`/`[]`.  Signatures are produced by external
crypto, so a (multi-)signature is represented by the passphrase that made it
(together with its participant index for co-signatures). -/
structure Draft where
  nonce : Nat
  senderPublicKey : String
  fee : Option String
  recipientId : Option String
  amount : Option String
  expiration : Option Nat
  signatureAssetSecret : Option String
  usernameAsset : Option String
  votes : Option (List String)
  msAssetParticipants : List String
  msAssetMin : Option Nat
  ipfsAsset : Option String
  payments : List Payment
  htlcLockAsset : Option HtlcLockData
  htlcClaimAsset : Option (String × String)
  htlcRefundAsset : Option String
  entityAsset : Option EntityAsset
  vendorField : Option String
  multiSignatures : List (Nat × String)
  signature : Option String
  secondSignature : Option String
deriving Repr, DecidableEq

/-- The external collaborators and randomness consumed while building:
key/address derivation, the feature-flag milestone, wallet/network lookups
(already degraded to their fallback values on failure, as the script's
catch-handlers do), and the random draws. -/
structure Env where
  pubKeyFromPassphrase : String → String
  pubKeyFromMultiSignatureAsset : Nat → List String → String
  addressFromMultiSignatureAsset : Nat → List String → String
  verify : Draft → Bool
  aip11 : Bool
  networktime : Nat
  senderWalletNonce : Option Nat
  msWalletNonce : Option Nat
  senderWalletPublicKey : Option String
  senderWalletVote : Option String
  senderWalletSecondPublicKey : Option String
  randomPassphrase : String
  randomRecipientAddress : String
  randomVendor : String
  mpRandom : ℚ
  lastLockTransactionId : Option String

/-- The mutable cross-transaction state of the process: the `nonces` cache
(an insert-at-front association list; `lookup` takes the first match) and
the in-place mutated `config.htlc.lock.expiration.value`. -/
structure State where
  nonces : List (String × Nat)
  htlcLockExpirationValue : Nat
deriving Repr, DecidableEq

/-- Errors thrown while serving one prompt line. `UnknownType` is the
pre-loop `throw new Error("Unknown type")`; `UnsupportedVersion` is the
dispatch chain's final `throw new Error("Version 2 not supported.")`;
`LookupFailed` is the TypeError raised when an htlc claim/refund has no
configured lock id and the external lookup returned nothing;
`VerificationFailed` is the failing `assert` of the verification gate. -/
inductive TxError
  | UnknownType
  | UnsupportedVersion
  | LookupFailed
  | VerificationFailed
deriving Repr, DecidableEq

/-- `config.passphrase || <random test wallet passphrase>`. -/
def senderSecret (env : Env) (cfg : Config) : String :=
  jsOrStr cfg.passphrase env.randomPassphrase

/-- `senderKeys.publicKey`. -/
def senderPk (env : Env) (cfg : Config) : String :=
  env.pubKeyFromPassphrase (senderSecret env cfg)

/-- `senderWallet.publicKey` after the cold-wallet fix-up of lines 202-204
(`if (!senderWallet.publicKey) senderWallet.publicKey = senderKeys.publicKey`). -/
def senderWalletPk (env : Env) (cfg : Config) : String :=
  jsOrStr env.senderWalletPublicKey (senderPk env cfg)

/-- `config.recipientId || Identities.Address.fromPassphrase(recipientSecret)`. -/
def recipientFor (env : Env) (cfg : Config) : String :=
  jsOrStr cfg.recipientId env.randomRecipientAddress

/-- `multiSignatureAddress()` (src/index.js lines 460-471): the composite
public key and address derived from the configured participants and
threshold. -/
def multiSignatureAddress (env : Env) (cfg : Config) : String × String :=
  (env.pubKeyFromMultiSignatureAsset cfg.msMin
      (cfg.msParticipants.map env.pubKeyFromPassphrase),
   env.addressFromMultiSignatureAsset cfg.msMin
      (cfg.msParticipants.map env.pubKeyFromPassphrase))

/-- The votes asset of the `type === 3` branch. -/
def voteList (env : Env) (cfg : Config) : List String :=
  if truthyStr cfg.vote then ["+" ++ jsOrStr cfg.vote ""]
  else if truthyStr cfg.unvote then ["-" ++ jsOrStr cfg.unvote ""]
  else if truthyStr env.senderWalletVote then ["-" ++ jsOrStr env.senderWalletVote ""]
  else ["+" ++ senderPk env cfg]

/-- The type-dispatch chain of `main` (src/index.js lines 230-336): populate
the kind-specific asset fields of the draft.  Every branch for a
post-legacy kind is additionally guarded by the `aip11` milestone flag; a
request that matches no branch falls through to
`throw new Error("Version 2 not supported.")`.  The htlc-lock branch
resolves (and writes back in place) the shared
`config.htlc.lock.expiration.value`, which is the only state effect. -/
def dispatch (env : Env) (cfg : Config) (t : Nat) (d : Draft) (st : State) :
    Except TxError (Draft × State) :=
  match t with
  | 0 =>
    .ok ({ d with recipientId := some (recipientFor env cfg),
                  amount := some cfg.amount,
                  expiration := some (jsOrNat cfg.expiration 0) }, st)
  | 1 =>
    .ok ({ d with signatureAssetSecret :=
                    some (jsOrStr cfg.secondPassphrase "second passphrase") }, st)
  | 2 =>
    .ok ({ d with usernameAsset :=
                    some (jsOrStr cfg.delegateName
                            ("delegate." ++ (senderPk env cfg).take 10)) }, st)
  | 3 =>
    .ok ({ d with votes := some (voteList env cfg) }, st)
  | 4 =>
    if env.aip11 then
      .ok ({ d with msAssetParticipants := cfg.msParticipants.map env.pubKeyFromPassphrase,
                    msAssetMin := some cfg.msMin }, st)
    else .error .UnsupportedVersion
  | 5 =>
    if env.aip11 then .ok ({ d with ipfsAsset := some cfg.ipfs }, st)
    else .error .UnsupportedVersion
  | 6 =>
    if env.aip11 then
      .ok ({ d with payments :=
               if cfg.multiPayments.isEmpty then
                 synthesizePayments (countFromRandom env.mpRandom)
               else cfg.multiPayments }, st)
    else .error .UnsupportedVersion
  | 7 =>
    if env.aip11 then .ok (d, st) else .error .UnsupportedVersion
  | 8 =>
    if env.aip11 then
      let st' :=
        if cfg.htlcExpirationType = .EpochTimestamp then
          if st.htlcLockExpirationValue < env.networktime then
            { st with htlcLockExpirationValue :=
                st.htlcLockExpirationValue + env.networktime }
          else st
        else st
      .ok ({ d with recipientId := some (recipientFor env cfg),
                    amount := some cfg.amount,
                    htlcLockAsset := some
                      ⟨cfg.htlcSecretHash, cfg.htlcExpirationType,
                       st'.htlcLockExpirationValue⟩ }, st')
    else .error .UnsupportedVersion
  | 9 =>
    if env.aip11 then
      match jsOrOptStr cfg.htlcClaimLockTransactionId env.lastLockTransactionId with
      | some id =>
        .ok ({ d with htlcClaimAsset := some (id, cfg.htlcClaimUnlockSecret) }, st)
      | none => .error .LookupFailed
    else .error .UnsupportedVersion
  | 10 =>
    if env.aip11 then
      match jsOrOptStr cfg.htlcRefundLockTransactionId env.lastLockTransactionId with
      | some id => .ok ({ d with htlcRefundAsset := some id }, st)
      | none => .error .LookupFailed
    else .error .UnsupportedVersion
  | 11 =>
    if env.aip11 then
      .ok ({ d with entityAsset := some (buildEntityAsset cfg.splitInput) }, st)
    else .error .UnsupportedVersion
  | _ + 12 =>
    .error .UnsupportedVersion

/-- The vendor-field step (src/index.js lines 338-345): start from the
configured value; when that is falsy, randomization is on and the kind is
0, 6 or 8, default to a random string; attach whatever is truthy. -/
def applyVendorField (env : Env) (cfg : Config) (t : Nat) (d : Draft) : Draft :=
  let vf := cfg.vendorFieldValue
  let vf := if !truthyStr vf && cfg.vendorFieldRandom && (t == 0 || t == 6 || t == 8)
            then some env.randomVendor else vf
  if truthyStr vf then { d with vendorField := vf } else d

/-- `transaction.multiSign(passphrase, index)`: contribute one co-signature
at the given participant index (the signature itself is external crypto, so
it is recorded as the signing passphrase). -/
def multiSign (d : Draft) (passphrase : String) (index : Nat) : Draft :=
  { d with multiSignatures := d.multiSignatures ++ [(index, passphrase)] }

/-- Lines 347-351: when multisig mode is on and the kind is not the
registration kind 4, overwrite the declared sender public key with the
composite public key of `multiSignatureAddress()`. -/
def applyMultiSigSender (env : Env) (cfg : Config) (t : Nat) (d : Draft) : Draft :=
  if cfg.msEnabled && t != 4 then
    { d with senderPublicKey := (multiSignatureAddress env cfg).1 }
  else d

/-- Lines 353-368: the co-signing loops.  For kind 4 (registration) the
sender is reset to the sender wallet's key and every configured participant
co-signs at its list position; otherwise every configured
`{ index, passphrase }` pair co-signs at its configured index, in
configuration order. -/
def applyMultiSign (env : Env) (cfg : Config) (t : Nat) (d : Draft) : Draft :=
  if cfg.msEnabled || t == 4 then
    if t == 4 then
      let d := { d with senderPublicKey := senderWalletPk env cfg }
      cfg.msParticipants.enum.foldl (fun d ip => multiSign d ip.2 ip.1) d
    else
      cfg.msPassphrases.foldl (fun d ip => multiSign d ip.2 ip.1) d
  else d

/-- Lines 370-378: outside multisig mode (or for kind 4) the sender signs,
then second-signs when a second passphrase is configured or the wallet has
a registered second public key.  `sign`/`secondSign` differ only in the
externally produced signature encoding, recorded here as the passphrase
used. -/
def applySign (env : Env) (cfg : Config) (t : Nat) (d : Draft) : Draft :=
  if !cfg.msEnabled || t == 4 then
    let d := { d with signature := some (senderSecret env cfg) }
    if truthyStr cfg.secondPassphrase then
      { d with secondSignature := cfg.secondPassphrase }
    else if truthyStr env.senderWalletSecondPublicKey then
      { d with secondSignature := some "second passphrase" }
    else d
  else d

/-- The freshly created builder of lines 222-228: nonce and sender public
key set, the fee set when configured, everything else untouched. -/
def initialDraft (env : Env) (cfg : Config) (nonce : Nat) : Draft :=
  { nonce := nonce
    senderPublicKey := senderPk env cfg
    fee := if truthyStr cfg.fee then cfg.fee else none
    recipientId := none, amount := none, expiration := none
    signatureAssetSecret := none, usernameAsset := none, votes := none
    msAssetParticipants := [], msAssetMin := none, ipfsAsset := none
    payments := [], htlcLockAsset := none, htlcClaimAsset := none
    htlcRefundAsset := none, entityAsset := none, vendorField := none
    multiSignatures := [], signature := none, secondSignature := none }

/-- The draft a single loop iteration of `main` builds, before the
verification gate: builder creation with nonce and sender public key
(lines 222-228), kind dispatch, vendor field, multisig sender override,
co-signing, plain signing. -/
def buildDraft (env : Env) (cfg : Config) (t : Nat) (nonce : Nat) (st : State) :
    Except TxError (Draft × State) :=
  match dispatch env cfg t (initialDraft env cfg nonce) st with
  | .error e => .error e
  | .ok (d1, st1) =>
    let d2 := applyVendorField env cfg t d1
    let d3 := applyMultiSign env cfg t (applyMultiSigSender env cfg t d2)
    let d4 := applySign env cfg t d3
    .ok (d4, st1)

/-- One full loop iteration: build the draft, then run the verification
gate `assert(instance.verify() || config.multiSignature.enabled)`
(line 387).  Only a draft that passes the gate is pushed onto the list of
transactions to submit.  A thrown error rolls nothing back, so the state
returned alongside an error keeps everything the dispatch step already
wrote — in particular the in-place htlc expiration mutation of line 295,
which runs before the failing assert.  (When `buildDraft` itself throws,
no branch has touched the state: every `.error` in `dispatch` is raised
before any mutation, so the input state is returned unchanged.) -/
def buildOne (env : Env) (cfg : Config) (t : Nat) (nonce : Nat) (st : State) :
    Except TxError Draft × State :=
  match buildDraft env cfg t nonce st with
  | .error e => (.error e, st)
  | .ok (d, st') =>
    if env.verify d || cfg.msEnabled then (.ok d, st')
    else (.error .VerificationFailed, st')

/-- The nonce issuance step of lines 208-220: a cache hit increments the
previous nonce; a cache miss seeds from
`config.startNonce || senderNonce || 0` plus one; the result is written
back into the cache. -/
def issueNonce (startNonce seed : Option Nat) (nonces : List (String × Nat))
    (pk : String) : Nat × List (String × Nat) :=
  match nonces.lookup pk with
  | some prev => (prev + 1, (pk, prev + 1) :: nonces)
  | none =>
    let n := jsOrNat startNonce (jsOrNat seed 0) + 1
    (n, (pk, n) :: nonces)

/-- The external seed used on a cache miss: the sender wallet's nonce, or
the composite multisig wallet's nonce when multisig mode is enabled
(lines 211-214). -/
def seedFor (env : Env) (cfg : Config) : Option Nat :=
  if cfg.msEnabled then env.msWalletNonce else env.senderWalletNonce

/-- The `for (let i = 0; i < quantity; i++)` loop of `main` together with
its enclosing `try`: each iteration issues a nonce and builds one
transaction; the first thrown error aborts the whole loop (the `catch`
skips `postTransaction`), so `.ok` carries exactly the list handed to
`postTransaction` and `.error` means nothing is submitted.  The nonce cache
and the htlc expiration value keep whatever the executed iterations wrote,
including whatever the failing iteration itself wrote before throwing. -/
def runBatch (env : Env) (cfg : Config) (t : Nat) :
    Nat → State → Except TxError (List Draft) × State
  | 0, st => (.ok [], st)
  | Nat.succ q, st =>
    let issued := issueNonce cfg.startNonce (seedFor env cfg) st.nonces (senderPk env cfg)
    let st1 : State := { st with nonces := issued.2 }
    match buildOne env cfg t issued.1 st1 with
    | (.error e, st2) => (.error e, st2)
    | (.ok d, st2) =>
      match runBatch env cfg t q st2 with
      | (.ok ds, st3) => (.ok (d :: ds), st3)
      | (.error e, st3) => (.error e, st3)

/-- The keys of the `builders` dispatch table (src/index.js lines 511-529). -/
def builderTypes : List Nat := [0, 1, 2, 3, 4, 5, 6, 7, 8, 9, 10, 11]

/-- Serving one prompt line (`main` without the I/O glue): look the
requested numeric kind up in the `builders` table — an unknown kind throws
before the loop, leaving the state untouched — then run the batch loop. -/
def runRequest (env : Env) (cfg : Config) (t quantity : Nat) (st : State) :
    Except TxError (List Draft) × State :=
  if builderTypes.contains t then runBatch env cfg t quantity st
  else (.error .UnknownType, st)

/-- `.ok`-ness of an `Except` result (used to state that an execution did
not throw). -/
def isOkE : Except TxError (Draft × State) → Bool
  | .ok _ => true
  | .error _ => false

/-- `.ok`-ness of a single iteration's outcome. -/
def isOkD : Except TxError Draft → Bool
  | .ok _ => true
  | .error _ => false

/-- The draft of a successful iteration outcome. -/
def okDraft : Except TxError Draft → Option Draft
  | .ok d => some d
  | .error _ => none

/-- A concrete configuration for evaluating the model on closed inputs: the
script's shipped `config` with a fixed sender passphrase and recipient. -/
def baseCfg : Config :=
  { passphrase := some "sender secret"
    recipientId := some "DRecipientAddr"
    startNonce := none
    expiration := none
    amount := "1"
    fee := none
    vendorFieldValue := none
    vendorFieldRandom := true
    secondPassphrase := none
    delegateName := none
    vote := none
    unvote := none
    msEnabled := false
    msParticipants :=
      ["multisig participant 1", "multisig participant 2", "multisig participant 3"]
    msMin := 2
    msPassphrases :=
      [(0, "multisig participant 1"), (1, "multisig participant 2"),
       (2, "multisig participant 3")]
    ipfs := "QmYSK2JyM3RyDyB52caZCTKFR3HKniEcMnNJYdk8DQ6KKB"
    multiPayments := []
    htlcSecretHash := "aa11"
    htlcExpirationType := .EpochTimestamp
    htlcClaimLockTransactionId := none
    htlcClaimUnlockSecret := "unlock"
    htlcRefundLockTransactionId := none
    splitInput := ["0"] }

/-- A concrete environment for evaluating the model on closed inputs: all
external derivations are tagged string constructions, every lookup
succeeds, the milestone is active. -/
def baseEnv : Env :=
  { pubKeyFromPassphrase := fun p => "pk:" ++ p
    pubKeyFromMultiSignatureAsset := fun m ks =>
      "mpk:" ++ toString m ++ ":" ++ String.intercalate "," ks
    addressFromMultiSignatureAsset := fun m ks =>
      "maddr:" ++ toString m ++ ":" ++ String.intercalate "," ks
    verify := fun _ => true
    aip11 := true
    networktime := 100
    senderWalletNonce := some 7
    msWalletNonce := some 3
    senderWalletPublicKey := none
    senderWalletVote := none
    senderWalletSecondPublicKey := none
    randomPassphrase := "2.6-wallet1"
    randomRecipientAddress := "DRandomAddr"
    randomVendor := "0.123456"
    mpRandom := 1/2
    lastLockTransactionId := some "lockid"
    }

/-- A fresh process state: empty nonce cache, the shipped
`config.htlc.lock.expiration.value = 52 * 8`. -/
def st0 : State := { nonces := [], htlcLockExpirationValue := 52 * 8 }

/-- The draft of a successful per-transaction result. -/
def draftOf : Except TxError (Draft × State) → Option Draft
  | .ok (d, _) => some d
  | .error _ => none

/-- The post-state of a successful per-transaction result. -/
def stateOf : Except TxError (Draft × State) → Option State
  | .ok (_, st) => some st
  | .error _ => none

/-- The vendor field of a successful per-transaction result. -/
def vendorOf (r : Except TxError (Draft × State)) : Option String :=
  (draftOf r).bind (fun d => d.vendorField)

/-- The resolved htlc lock expiration value attached to a successful
per-transaction result. -/
def lockValueOf (r : Except TxError (Draft × State)) : Option Nat :=
  (draftOf r).bind (fun d => d.htlcLockAsset.map (fun a => a.expirationValue))

/-- The payments list attached to a successful per-transaction result. -/
def paymentsOf (r : Except TxError (Draft × State)) : Option (List Payment) :=
  (draftOf r).map (fun d => d.payments)

/-- `.ok`-ness of a whole batch result. -/
def isOkL : Except TxError (List Draft) → Bool
  | .ok _ => true
  | .error _ => false

/-- The base configuration with multisig mode switched on. -/
def cfgMultiSig : Config := { baseCfg with msEnabled := true }

/-- The base configuration with an explicit vendor field value. -/
def cfgVendorSet : Config := { baseCfg with vendorFieldValue := some "hello" }

/-- The base configuration with an entity prompt line whose action token is
not one of register/update/resign. -/
def cfgEntityBad : Config :=
  { baseCfg with splitInput := ["11", "1", "1", "1", "frobnicate", "my_business", "QmHash"] }

/-- The base environment with a verifier that rejects everything. -/
def envVerifyNone : Env := { baseEnv with verify := fun _ => false }

/-- The base environment with a verifier that accepts only the draft with
nonce 8 (the first nonce the base fixtures issue). -/
def envVerifyFirst : Env := { baseEnv with verify := fun d => d.nonce == 8 }

theorem dispatch_ok_frame (env : Env) (cfg : Config) (t : Nat) (d d' : Draft)
    (st st' : State) (h : dispatch env cfg t d st = .ok (d', st')) :
    d'.vendorField = d.vendorField ∧ d'.multiSignatures = d.multiSignatures ∧
    d'.signature = d.signature ∧ d'.secondSignature = d.secondSignature ∧
    d'.senderPublicKey = d.senderPublicKey ∧ d'.nonce = d.nonce := by
  rcases t with _|_|_|_|_|_|_|_|_|_|_|_|t <;>
    simp only [dispatch] at h <;>
    (try split at h) <;>
    (try split at h) <;>
    simp only [Except.ok.injEq, Prod.mk.injEq, reduceCtorEq] at h <;>
    obtain ⟨rfl, rfl⟩ := h <;>
    exact ⟨rfl, rfl, rfl, rfl, rfl, rfl⟩

theorem dispatch_no_verification_error (env : Env) (cfg : Config) (t : Nat)
    (d : Draft) (st : State) :
    dispatch env cfg t d st ≠ .error .VerificationFailed := by
  intro h
  rcases t with _|_|_|_|_|_|_|_|_|_|_|_|t <;>
    simp only [dispatch] at h <;>
    (try split at h) <;>
    (try split at h) <;>
    simp_all

theorem foldl_multiSign_multiSignatures (l : List (Nat × String)) (d : Draft) :
    (l.foldl (fun d ip => multiSign d ip.2 ip.1) d).multiSignatures
      = d.multiSignatures ++ l := by
  induction l generalizing d with
  | nil => simp
  | cons a l ih =>
    rw [List.foldl_cons, ih]
    simp [multiSign]

theorem foldl_multiSign_frame (l : List (Nat × String)) (d : Draft) :
    (l.foldl (fun d ip => multiSign d ip.2 ip.1) d).signature = d.signature ∧
    (l.foldl (fun d ip => multiSign d ip.2 ip.1) d).secondSignature = d.secondSignature ∧
    (l.foldl (fun d ip => multiSign d ip.2 ip.1) d).senderPublicKey = d.senderPublicKey ∧
    (l.foldl (fun d ip => multiSign d ip.2 ip.1) d).vendorField = d.vendorField ∧
    (l.foldl (fun d ip => multiSign d ip.2 ip.1) d).nonce = d.nonce := by
  induction l generalizing d with
  | nil => simp
  | cons a l ih =>
    simp only [List.foldl_cons]
    simpa [multiSign] using ih (multiSign d a.2 a.1)

theorem applyVendorField_frame (env : Env) (cfg : Config) (t : Nat) (d : Draft) :
    (applyVendorField env cfg t d).multiSignatures = d.multiSignatures ∧
    (applyVendorField env cfg t d).signature = d.signature ∧
    (applyVendorField env cfg t d).secondSignature = d.secondSignature ∧
    (applyVendorField env cfg t d).senderPublicKey = d.senderPublicKey ∧
    (applyVendorField env cfg t d).nonce = d.nonce := by
  simp only [applyVendorField]
  split <;> split <;> exact ⟨rfl, rfl, rfl, rfl, rfl⟩

theorem applyMultiSigSender_frame (env : Env) (cfg : Config) (t : Nat) (d : Draft) :
    (applyMultiSigSender env cfg t d).multiSignatures = d.multiSignatures ∧
    (applyMultiSigSender env cfg t d).signature = d.signature ∧
    (applyMultiSigSender env cfg t d).secondSignature = d.secondSignature ∧
    (applyMultiSigSender env cfg t d).vendorField = d.vendorField ∧
    (applyMultiSigSender env cfg t d).nonce = d.nonce := by
  unfold applyMultiSigSender
  split <;> simp

theorem applyMultiSigSender_sender (env : Env) (cfg : Config) (t : Nat) (d : Draft)
    (hms : cfg.msEnabled = true) (ht : t ≠ 4) :
    (applyMultiSigSender env cfg t d).senderPublicKey
      = (multiSignatureAddress env cfg).1 := by
  simp [applyMultiSigSender, hms, bne_iff_ne, ht, multiSignatureAddress]

theorem applyMultiSign_spend (env : Env) (cfg : Config) (t : Nat) (d : Draft)
    (hms : cfg.msEnabled = true) (ht : t ≠ 4) :
    applyMultiSign env cfg t d
      = cfg.msPassphrases.foldl (fun d ip => multiSign d ip.2 ip.1) d := by
  have ht4 : (t == 4) = false := by simpa using ht
  simp [applyMultiSign, hms, ht4]

theorem applyMultiSign_vendorField (env : Env) (cfg : Config) (t : Nat) (d : Draft) :
    (applyMultiSign env cfg t d).vendorField = d.vendorField := by
  unfold applyMultiSign
  split
  · split
    · exact (foldl_multiSign_frame _ _).2.2.2.1
    · exact (foldl_multiSign_frame _ _).2.2.2.1
  · rfl

theorem applySign_vendorField (env : Env) (cfg : Config) (t : Nat) (d : Draft) :
    (applySign env cfg t d).vendorField = d.vendorField := by
  unfold applySign
  split
  · split
    · rfl
    · split <;> rfl
  · rfl

theorem applySign_spend (env : Env) (cfg : Config) (t : Nat) (d : Draft)
    (hms : cfg.msEnabled = true) (ht : t ≠ 4) :
    applySign env cfg t d = d := by
  have ht4 : (t == 4) = false := by simpa using ht
  simp [applySign, hms, ht4]

theorem buildDraft_ok_decomp (env : Env) (cfg : Config) (t n : Nat) (st : State)
    (d : Draft) (st' : State) (h : buildDraft env cfg t n st = .ok (d, st')) :
    ∃ d1, dispatch env cfg t (initialDraft env cfg n) st = .ok (d1, st') ∧
      d = applySign env cfg t (applyMultiSign env cfg t
            (applyMultiSigSender env cfg t (applyVendorField env cfg t d1))) := by
  unfold buildDraft at h
  split at h
  · simp at h
  · rename_i d1 st1 heq
    simp only [Except.ok.injEq, Prod.mk.injEq] at h
    obtain ⟨h1, rfl⟩ := h
    exact ⟨d1, heq, h1.symm⟩

theorem buildDraft_error_dispatch (env : Env) (cfg : Config) (t n : Nat)
    (st : State) (e : TxError) (h : buildDraft env cfg t n st = .error e) :
    dispatch env cfg t (initialDraft env cfg n) st = .error e := by
  unfold buildDraft at h
  split at h
  · rename_i e2 heq
    simp only [Except.error.injEq] at h
    rw [h] at heq
    exact heq
  · simp at h

theorem buildOne_ok_draft (env : Env) (cfg : Config) (t n : Nat) (st : State)
    (d : Draft) (st' : State) (h : buildOne env cfg t n st = (.ok d, st')) :
    buildDraft env cfg t n st = .ok (d, st') := by
  unfold buildOne at h
  split at h
  · simp at h
  · rename_i d1 st1 heq
    split at h
    · simp only [Prod.mk.injEq, Except.ok.injEq] at h
      obtain ⟨rfl, rfl⟩ := h
      exact heq
    · simp at h

theorem buildOne_ok_gate (env : Env) (cfg : Config) (t n : Nat) (st : State)
    (d : Draft) (st' : State) (h : buildOne env cfg t n st = (.ok d, st')) :
    (env.verify d || cfg.msEnabled) = true := by
  unfold buildOne at h
  split at h
  · simp at h
  · rename_i d1 st1 heq
    split at h
    · rename_i hcond
      simp only [Prod.mk.injEq, Except.ok.injEq] at h
      obtain ⟨rfl, rfl⟩ := h
      simpa using hcond
    · simp at h

/-- C4 (confirmed): expiration resolution passes an epoch timestamp through
unchanged when it is at least the reference time, shifts it by the reference
time when it is below it, and passes block heights through unconditionally. -/
theorem resolveExpiration_spec (v t : Nat) :
    (t ≤ v → resolveExpiration .EpochTimestamp v t = v) ∧
    (v < t → resolveExpiration .EpochTimestamp v t = v + t) ∧
    resolveExpiration .BlockHeight v t = v := by
  refine ⟨fun h => ?_, fun h => ?_, rfl⟩
  · simp [resolveExpiration, Nat.not_lt.mpr h]
  · simp [resolveExpiration, h]

/-- Witness for C4 at concrete values 500/100 (absolute), 50/100 (relative)
and a block height. -/
theorem resolveExpiration_spec_witness :
    resolveExpiration .EpochTimestamp 500 100 = 500 ∧
    resolveExpiration .EpochTimestamp 50 100 = 150 ∧
    resolveExpiration .BlockHeight 50 100 = 50 :=
  ⟨(resolveExpiration_spec 500 100).1 (by decide),
   (resolveExpiration_spec 50 100).2.1 (by decide),
   (resolveExpiration_spec 50 100).2.2⟩

/-- C1 (corrected, counterexample): with a configured override of 5 and an
external seed nonce of 10 the first issued nonce is 6 (the override wins via
JS `||`), not `max(override, seedNonce, 0) + 1 = 11` as the claim states. -/
theorem nonce_seed_override_counterexample :
    (issueNonce (some 5) (some 10) [] "pk").1 = 6 ∧
    (issueNonce (some 5) (some 10) [] "pk").1 ≠ Nat.max 5 (Nat.max 10 0) + 1 := by
  constructor <;> decide

/-- C1 (corrected): the first nonce issued for a sender is
`s + 1` when the override is set and nonzero, else `v + 1` when the external
seed is set and nonzero, else `1` (first-truthy choice, not a maximum);
every subsequent call returns the cached previous nonce plus one, ignoring
both the override and the external seed, and the issued nonce is written
back to the cache. -/
theorem nonce_sequencer_first_and_subsequent (startNonce seed : Option Nat)
    (m : List (String × Nat)) (pk : String) :
    (m.lookup pk = none →
      (∀ s, startNonce = some s → s ≠ 0 → (issueNonce startNonce seed m pk).1 = s + 1) ∧
      ((startNonce = none ∨ startNonce = some 0) →
        ∀ v, seed = some v → v ≠ 0 → (issueNonce startNonce seed m pk).1 = v + 1) ∧
      ((startNonce = none ∨ startNonce = some 0) → (seed = none ∨ seed = some 0) →
        (issueNonce startNonce seed m pk).1 = 1)) ∧
    (∀ prev, m.lookup pk = some prev →
      ∀ startNonce2 seed2, (issueNonce startNonce2 seed2 m pk).1 = prev + 1) ∧
    (issueNonce startNonce seed m pk).2.lookup pk
      = some (issueNonce startNonce seed m pk).1 := by
  refine ⟨fun hm => ⟨?_, ?_, ?_⟩, fun prev hm s2 d2 => ?_, ?_⟩
  · rintro s rfl hs
    simp [issueNonce, hm, jsOrNat, hs]
  · rintro (rfl | rfl) v rfl hv <;> simp [issueNonce, hm, jsOrNat, hv]
  · rintro (rfl | rfl) (rfl | rfl) <;> simp [issueNonce, hm, jsOrNat]
  · simp [issueNonce, hm]
  · unfold issueNonce
    cases hm : m.lookup pk <;> simp [hm]

/-- Witness for C1: a fresh sender with no override and seed 7 gets nonce 8;
a cached sender with last nonce 8 gets 9 regardless of override and seed. -/
theorem nonce_sequencer_first_and_subsequent_witness :
    (issueNonce none (some 7) [] "pk").1 = 8 ∧
    (issueNonce (some 5) (some 10) [("pk", 8)] "pk").1 = 9 :=
  ⟨((nonce_sequencer_first_and_subsequent none (some 7) [] "pk").1 rfl).2.1
      (Or.inl rfl) 7 rfl (by decide),
   (nonce_sequencer_first_and_subsequent (some 5) (some 10) [("pk", 8)] "pk").2.1
      8 rfl (some 5) (some 10)⟩

/-- C9 (confirmed): a numeric kind outside the builder table is rejected
before the loop, leaving the nonce cache (and all state) untouched; by
contrast a known kind whose milestone is inactive (kind 4 with aip11 off)
still errors but only after consuming a nonce for the sender. -/
theorem unknown_type_preserves_nonces :
    (∀ (env : Env) (cfg : Config) (t q : Nat) (st : State),
      builderTypes.contains t = false →
      runRequest env cfg t q st = (.error .UnknownType, st)) ∧
    (runRequest { baseEnv with aip11 := false } baseCfg 4 1 st0
        = (.error .UnsupportedVersion,
           { st0 with nonces := [("pk:sender secret", 8)] }) ∧
     st0.nonces.lookup "pk:sender secret" = none) := by
  refine ⟨fun env cfg t q st h => ?_, rfl, rfl⟩
  unfold runRequest
  simp only [h]
  simp

/-- Witness for C9 at the unknown kind 12. -/
theorem unknown_type_preserves_nonces_witness :
    runRequest baseEnv baseCfg 12 1 st0 = (.error .UnknownType, st0) :=
  unknown_type_preserves_nonces.1 baseEnv baseCfg 12 1 st0 (by decide)

/-- C7 (corrected, counterexample): an unrecognized entity action token is
not rejected by the repository code — the asset is built with no action
field and empty data, and the transaction build for kind 11 completes
without any error. -/
theorem entity_unknown_action_counterexample :
    (buildEntityAsset cfgEntityBad.splitInput).action = none ∧
    (buildEntityAsset cfgEntityBad.splitInput).registrationId = none ∧
    (buildEntityAsset cfgEntityBad.splitInput).name = none ∧
    (buildEntityAsset cfgEntityBad.splitInput).ipfsData = none ∧
    isOkD (buildOne baseEnv cfgEntityBad 11 1 st0).1 = true :=
  ⟨rfl, rfl, rfl, rfl, rfl⟩

/-- C7 (corrected): Register populates name and content-hash and no
registration id, Update populates registration id and content-hash, Resign
populates only the registration id; an unrecognized action string is not a
locally raised input error — it yields an asset with no action field and no
action-specific fields (any failure would arise only inside the external
transaction builder). -/
theorem entity_asset_population (input : List String) :
    (input[4]? = some "register" →
      (buildEntityAsset input).action = some .Register ∧
      (buildEntityAsset input).name = input[5]? ∧
      (buildEntityAsset input).ipfsData = input[6]? ∧
      (buildEntityAsset input).registrationId = none) ∧
    (input[4]? = some "update" →
      (buildEntityAsset input).action = some .Update ∧
      (buildEntityAsset input).registrationId = input[5]? ∧
      (buildEntityAsset input).ipfsData = input[6]? ∧
      (buildEntityAsset input).name = none) ∧
    (input[4]? = some "resign" →
      (buildEntityAsset input).action = some .Resign ∧
      (buildEntityAsset input).registrationId = input[5]? ∧
      (buildEntityAsset input).name = none ∧
      (buildEntityAsset input).ipfsData = none) ∧
    (∀ s, input[4]? = some s → mapAction s = none →
      (buildEntityAsset input).action = none ∧
      (buildEntityAsset input).registrationId = none ∧
      (buildEntityAsset input).name = none ∧
      (buildEntityAsset input).ipfsData = none) := by
  refine ⟨fun h => ?_, fun h => ?_, fun h => ?_, fun s h hm => ?_⟩
  · simp [buildEntityAsset, h, mapAction]
  · simp [buildEntityAsset, h, mapAction]
  · simp [buildEntityAsset, h, mapAction]
  · simp [buildEntityAsset, h, hm]

/-- Witness for C7 on a concrete register, update, resign and unrecognized
prompt line. -/
theorem entity_asset_population_witness :
    (buildEntityAsset ["11", "1", "1", "1", "register", "biz", "Qm1"]).name
        = some "biz" ∧
    (buildEntityAsset ["11", "1", "1", "1", "update", "abcd", "Qm2"]).registrationId
        = some "abcd" ∧
    (buildEntityAsset ["11", "1", "1", "1", "resign", "abcd"]).action
        = some .Resign ∧
    (buildEntityAsset ["11", "1", "1", "1", "frobnicate", "x"]).action = none := by
  refine ⟨?_, ?_, ?_, ?_⟩
  · have h := (entity_asset_population ["11", "1", "1", "1", "register", "biz", "Qm1"]).1 rfl
    simpa using h.2.1
  · have h := (entity_asset_population ["11", "1", "1", "1", "update", "abcd", "Qm2"]).2.1 rfl
    simpa using h.2.1
  · exact ((entity_asset_population ["11", "1", "1", "1", "resign", "abcd"]).2.2.1 rfl).1
  · exact ((entity_asset_population ["11", "1", "1", "1", "frobnicate", "x"]).2.2.2
      "frobnicate" rfl rfl).1

/-- Helper for C10: the htlc-lock dispatch branch in closed form — it
resolves the stored expiration value against the current network time,
writes the result back into the shared state, and attaches it to the draft. -/
theorem dispatch_htlc_lock (env : Env) (cfg : Config) (d : Draft) (st : State)
    (hk : cfg.htlcExpirationType = .EpochTimestamp) (ha : env.aip11 = true) :
    dispatch env cfg 8 d st =
      .ok ({ d with recipientId := some (recipientFor env cfg),
                    amount := some cfg.amount,
                    htlcLockAsset := some
                      ⟨cfg.htlcSecretHash, cfg.htlcExpirationType,
                       resolveExpiration .EpochTimestamp
                         st.htlcLockExpirationValue env.networktime⟩ },
            { st with htlcLockExpirationValue := resolveExpiration .EpochTimestamp st.htlcLockExpirationValue env.networktime }) := by
  obtain ⟨ns, hv⟩ := st
  simp only [dispatch, ha, if_true, hk]
  by_cases hlt : hv < env.networktime <;> simp [resolveExpiration, hlt]

/-- C10 (confirmed): resolving an epoch-timestamp htlc lock expiration
writes the resolved absolute value back into the shared configuration state
and attaches it to the draft; this holds at every state, and the resolved
value is a fixed point for any later network time at most that value — so a
later htlc-lock build started from the written-back state reuses the stored
value unchanged instead of re-adding the reference time. -/
theorem htlc_expiration_writeback (env : Env) (cfg : Config) (d : Draft) (st : State)
    (hk : cfg.htlcExpirationType = .EpochTimestamp)
    (hok : isOkE (dispatch env cfg 8 d st) = true) :
    stateOf (dispatch env cfg 8 d st) = some { st with htlcLockExpirationValue := resolveExpiration .EpochTimestamp st.htlcLockExpirationValue env.networktime } ∧
    lockValueOf (dispatch env cfg 8 d st) = some (resolveExpiration .EpochTimestamp st.htlcLockExpirationValue env.networktime) ∧
    (∀ t2, t2 ≤ resolveExpiration .EpochTimestamp st.htlcLockExpirationValue env.networktime →
      resolveExpiration .EpochTimestamp (resolveExpiration .EpochTimestamp st.htlcLockExpirationValue env.networktime) t2 = resolveExpiration .EpochTimestamp st.htlcLockExpirationValue env.networktime) := by
  have ha : env.aip11 = true := by
    by_contra ha2
    rw [Bool.not_eq_true] at ha2
    simp [dispatch, ha2, isOkE] at hok
  rw [dispatch_htlc_lock env cfg d st hk ha]
  refine ⟨rfl, rfl, fun t2 hle => ?_⟩
  set v2 := resolveExpiration .EpochTimestamp st.htlcLockExpirationValue env.networktime with hv2
  simp [resolveExpiration, Nat.not_lt.mpr hle]

/-- Witness for C10: from a stored relative value 50 and network time 100
the state is updated in place to 150; a second lock build at network time
120 ≤ 150 leaves the stored value at 150. -/
theorem htlc_expiration_writeback_witness :
    stateOf (dispatch baseEnv baseCfg 8 (initialDraft baseEnv baseCfg 1) ⟨[], 50⟩)
      = some ⟨[], 150⟩ ∧
    stateOf (dispatch { baseEnv with networktime := 120 } baseCfg 8
        (initialDraft baseEnv baseCfg 1) ⟨[], 150⟩)
      = some ⟨[], 150⟩ := by
  have h1 := (htlc_expiration_writeback baseEnv baseCfg
    (initialDraft baseEnv baseCfg 1) ⟨[], 50⟩ rfl rfl).1
  have h2 := (htlc_expiration_writeback { baseEnv with networktime := 120 } baseCfg
    (initialDraft baseEnv baseCfg 1) ⟨[], 150⟩ rfl rfl).1
  exact ⟨h1.trans rfl, h2.trans rfl⟩

/-- C8 (confirmed): with an empty configured payment list the synthesized
multi-payment batch has between 64 and 128 entries, every entry pays
amount "1", the i-th entry goes to the fixture wallet at position
i mod pool-size, and the htlc-free dispatch branch for kind 6 attaches
exactly this synthesized list. -/
theorem multipayment_synthesis_spec (r : ℚ) (h0 : 0 ≤ r) (h1 : r < 1) :
    (64 ≤ (synthesizePayments (countFromRandom r)).length ∧
     (synthesizePayments (countFromRandom r)).length ≤ 128) ∧
    (∀ i, i < countFromRandom r →
      (synthesizePayments (countFromRandom r))[i]? = some ⟨rotatedRecipient i, "1"⟩) ∧
    (∀ (env : Env) (cfg : Config) (d : Draft) (st : State),
      cfg.multiPayments = [] → env.aip11 = true → env.mpRandom = r →
      paymentsOf (dispatch env cfg 6 d st)
        = some (synthesizePayments (countFromRandom r))) := by
  have hlen : (synthesizePayments (countFromRandom r)).length = countFromRandom r := by
    simp [synthesizePayments]
  have hfl : (64 : ℤ) ≤ Int.floor (r * 65 + 64) := by
    rw [Int.le_floor]
    push_cast
    nlinarith
  have hfu : Int.floor (r * 65 + 64) < 129 := by
    rw [Int.floor_lt]
    push_cast
    nlinarith
  refine ⟨⟨?_, ?_⟩, fun i hi => ?_, fun env cfg d st hmp ha hr => ?_⟩
  · rw [hlen]
    unfold countFromRandom
    exact (Int.le_toNat (by omega)).mpr hfl
  · rw [hlen]
    unfold countFromRandom
    exact Int.toNat_le.mpr (by omega)
  · simp [synthesizePayments, hi]
  · subst hr
    simp [dispatch, ha, hmp, paymentsOf, draftOf]

/-- Witness for C8 at the random draw 1/2 (96 synthesized payments). -/
theorem multipayment_synthesis_spec_witness :
    (64 ≤ (synthesizePayments (countFromRandom (1/2))).length ∧
     (synthesizePayments (countFromRandom (1/2))).length ≤ 128) ∧
    (synthesizePayments (countFromRandom (1/2)))[0]?
        = some ⟨"DHKxXag9PjfjHBbPg3HQS5WCaQZdgDf6yi", "1"⟩ ∧
    paymentsOf (dispatch baseEnv baseCfg 6 (initialDraft baseEnv baseCfg 1) st0)
      = some (synthesizePayments (countFromRandom (1/2))) := by
  have h := multipayment_synthesis_spec (1/2) (by norm_num) (by norm_num)
  have hc : 0 < countFromRandom (1/2) := by
    norm_num [countFromRandom]
  refine ⟨h.1, ?_, h.2.2 baseEnv baseCfg (initialDraft baseEnv baseCfg 1) st0 rfl rfl rfl⟩
  have h0 := h.2.1 0 hc
  rw [h0]
  rfl

/-- C3 (confirmed): the verification gate rejects, with VerificationFailed
and before queueing, every non-multisig draft whose recomputed verification
fails (the state the failed iteration wrote stays in place); with multisig
mode enabled the gate passes every built draft through unconditionally —
both the ok and the error outcome of the build are forwarded untouched and
VerificationFailed can never be produced; every draft in a submitted batch
passed `verify || multisigEnabled`. -/
theorem verification_gate_correct :
    (∀ (env : Env) (cfg : Config) (t n : Nat) (st : State) (d : Draft) (st' : State),
      cfg.msEnabled = false → buildDraft env cfg t n st = .ok (d, st') →
      env.verify d = false →
      buildOne env cfg t n st = (.error .VerificationFailed, st')) ∧
    (∀ (env : Env) (cfg : Config) (t n : Nat) (st : State),
      cfg.msEnabled = true →
      (∀ d st', buildDraft env cfg t n st = .ok (d, st') →
        buildOne env cfg t n st = (.ok d, st')) ∧
      (∀ e, buildDraft env cfg t n st = .error e →
        buildOne env cfg t n st = (.error e, st))) ∧
    (∀ (env : Env) (cfg : Config) (t n : Nat) (st : State),
      cfg.msEnabled = true → (buildOne env cfg t n st).1 ≠ .error .VerificationFailed) ∧
    (∀ (env : Env) (cfg : Config) (t q : Nat) (st : State) (l : List Draft) (st2 : State),
      runBatch env cfg t q st = (.ok l, st2) →
      ∀ d ∈ l, (env.verify d || cfg.msEnabled) = true) := by
  refine ⟨?_, ?_, ?_, ?_⟩
  · intro env cfg t n st d st' hms hb hv
    unfold buildOne
    rw [hb]
    simp [hv, hms]
  · intro env cfg t n st hms
    constructor
    · intro d st' hb
      unfold buildOne
      rw [hb]
      simp [hms]
    · intro e hb
      unfold buildOne
      rw [hb]
  · intro env cfg t n st hms h
    unfold buildOne at h
    split at h
    · rename_i e heq
      simp only [Except.error.injEq] at h
      rw [h] at heq
      have hd := buildDraft_error_dispatch env cfg t n st .VerificationFailed heq
      exact dispatch_no_verification_error env cfg t (initialDraft env cfg n) st hd
    · rename_i d1 st1 heq
      split at h
      · simp at h
      · rename_i hcond
        exact hcond (by simp [hms])
  · intro env cfg t q
    induction q with
    | zero =>
      intro st l st2 h d hd
      simp only [runBatch, Prod.mk.injEq, Except.ok.injEq] at h
      obtain ⟨rfl, rfl⟩ := h
      simp at hd
    | succ q ih =>
      intro st l st2 h d hd
      simp only [runBatch] at h
      split at h
      · simp at h
      · rename_i d2 st3 heq
        split at h
        · rename_i ds st4 heq2
          simp only [Prod.mk.injEq, Except.ok.injEq] at h
          obtain ⟨rfl, rfl⟩ := h
          rcases List.mem_cons.mp hd with rfl | hmem
          · exact buildOne_ok_gate env cfg t _ _ d st3 heq
          · exact ih st3 ds st4 heq2 d hmem
        · simp at h

/-- Witness for C3: a failing verifier outside multisig mode yields
VerificationFailed (with the iteration's state kept); with multisig mode on
the gate can never produce VerificationFailed. -/
theorem verification_gate_correct_witness :
    buildOne envVerifyNone baseCfg 0 1 st0 = (.error .VerificationFailed, st0) ∧
    (buildOne baseEnv cfgMultiSig 0 1 st0).1 ≠ .error .VerificationFailed :=
  ⟨verification_gate_correct.1 envVerifyNone baseCfg 0 1 st0 _ _ rfl rfl rfl,
   verification_gate_correct.2.2.1 baseEnv cfgMultiSig 0 1 st0 rfl⟩

/-- C5 (confirmed): for a multisig spend (multisig enabled, kind other than
the registration kind 4) the built draft carries the composite public key
derived from the configured participants and threshold as its sender, the
co-signatures are exactly the configured (index, passphrase) pairs in
configuration order, and no sender or second signature is attached. -/
theorem multisig_spend_draft_spec (env : Env) (cfg : Config) (t n : Nat) (st : State)
    (d : Draft) (st' : State) (hms : cfg.msEnabled = true) (ht : t ≠ 4)
    (hb : buildOne env cfg t n st = (.ok d, st')) :
    d.senderPublicKey = env.pubKeyFromMultiSignatureAsset cfg.msMin (cfg.msParticipants.map env.pubKeyFromPassphrase) ∧
    d.multiSignatures = cfg.msPassphrases ∧
    d.signature = none ∧
    d.secondSignature = none := by
  have hbd := buildOne_ok_draft env cfg t n st d st' hb
  obtain ⟨d1, hd, rfl⟩ := buildDraft_ok_decomp env cfg t n st d st' hbd
  have hframe := dispatch_ok_frame env cfg t (initialDraft env cfg n) d1 st st' hd
  rw [applySign_spend env cfg t _ hms ht, applyMultiSign_spend env cfg t _ hms ht]
  have hfold := foldl_multiSign_frame cfg.msPassphrases
    (applyMultiSigSender env cfg t (applyVendorField env cfg t d1))
  have hfoldms := foldl_multiSign_multiSignatures cfg.msPassphrases
    (applyMultiSigSender env cfg t (applyVendorField env cfg t d1))
  have hvf := applyVendorField_frame env cfg t d1
  have hmss := applyMultiSigSender_frame env cfg t (applyVendorField env cfg t d1)
  refine ⟨?_, ?_, ?_, ?_⟩
  · rw [hfold.2.2.1, applyMultiSigSender_sender env cfg t _ hms ht]
    rfl
  · rw [hfoldms, hmss.1, hvf.1, hframe.2.1]
    simp [initialDraft]
  · rw [hfold.1, hmss.2.1, hvf.2.1, hframe.2.2.1]
    rfl
  · rw [hfold.2.1, hmss.2.2.1, hvf.2.2.1, hframe.2.2.2.1]
    rfl

/-- Witness for C5: a multisig transfer built from the base fixtures. -/
theorem multisig_spend_draft_spec_witness :
    (okDraft (buildOne baseEnv cfgMultiSig 0 1 st0).1).map (fun d => d.senderPublicKey)
        = some (baseEnv.pubKeyFromMultiSignatureAsset cfgMultiSig.msMin (cfgMultiSig.msParticipants.map baseEnv.pubKeyFromPassphrase)) ∧
    (okDraft (buildOne baseEnv cfgMultiSig 0 1 st0).1).map (fun d => d.multiSignatures)
        = some cfgMultiSig.msPassphrases ∧
    (okDraft (buildOne baseEnv cfgMultiSig 0 1 st0).1).map (fun d => d.signature)
        = some none ∧
    (okDraft (buildOne baseEnv cfgMultiSig 0 1 st0).1).map (fun d => d.secondSignature)
        = some none := by
  obtain ⟨h1, h2, h3, h4⟩ :=
    multisig_spend_draft_spec baseEnv cfgMultiSig 0 1 st0 _ _ rfl (by decide) rfl
  exact ⟨congrArg some h1, congrArg some h2, congrArg some h3, congrArg some h4⟩

/-- Helper for C6: the value the vendor-field step attaches, as a function
of the configured value, the randomization flag and the kind. -/
theorem applyVendorField_value (env : Env) (cfg : Config) (t : Nat) (d : Draft)
    (hd : d.vendorField = none) (hrv : env.randomVendor ≠ "") :
    (applyVendorField env cfg t d).vendorField =
      if truthyStr cfg.vendorFieldValue = true then cfg.vendorFieldValue
      else if cfg.vendorFieldRandom = true ∧ (t = 0 ∨ t = 6 ∨ t = 8) then some env.randomVendor
      else none := by
  cases hv : truthyStr cfg.vendorFieldValue with
  | true => simp [applyVendorField, hv]
  | false =>
    have hemp : env.randomVendor.isEmpty = false := by
      cases hemp2 : env.randomVendor.isEmpty
      · rfl
      · exact absurd ((String.isEmpty_iff env.randomVendor).mp hemp2) hrv
    have htv : truthyStr (some env.randomVendor) = true := by
      simp [truthyStr, hemp]
    by_cases hcond : cfg.vendorFieldRandom = true ∧ (t = 0 ∨ t = 6 ∨ t = 8)
    · obtain ⟨hr, hts⟩ := hcond
      rcases hts with rfl | rfl | rfl <;>
        simp [applyVendorField, hv, hr, htv]
    · have hb : (cfg.vendorFieldRandom && (t == 0 || t == 6 || t == 8)) = false := by
        cases hrb : cfg.vendorFieldRandom with
        | false => simp
        | true =>
          have hts : ¬(t = 0 ∨ t = 6 ∨ t = 8) := fun hts2 => hcond ⟨hrb, hts2⟩
          push_neg at hts
          obtain ⟨h0, h6, h8⟩ := hts
          simp [h0, h6, h8]
      simp [applyVendorField, hv, hb, hd, hcond]

/-- C6 (corrected, counterexample): an explicitly configured vendor field
value is attached to a Vote transaction (kind 3), a kind that carries no
vendor field — the claim's "only Transfer, MultiPayment, HTLC Lock" fails
for explicitly configured values. -/
theorem vendor_field_counterexample :
    vendorOf (buildDraft baseEnv cfgVendorSet 3 1 st0) = some "hello" ∧
    isOkE (buildDraft baseEnv cfgVendorSet 3 1 st0) = true ∧
    (3 : Nat) ≠ 0 ∧ (3 : Nat) ≠ 6 ∧ (3 : Nat) ≠ 8 :=
  ⟨rfl, rfl, by decide, by decide, by decide⟩

/-- C6 (corrected): the vendor field attached to a built draft is the
explicitly configured value for EVERY kind when that value is non-empty;
only the random default is restricted to kinds 0, 6 and 8 (when
randomization is on and no explicit value is set); otherwise no vendor
field is attached. -/
theorem vendor_field_attachment (env : Env) (cfg : Config) (t n : Nat) (st : State)
    (d : Draft) (st' : State) (hrv : env.randomVendor ≠ "")
    (hb : buildDraft env cfg t n st = .ok (d, st')) :
    d.vendorField =
      if truthyStr cfg.vendorFieldValue = true then cfg.vendorFieldValue
      else if cfg.vendorFieldRandom = true ∧ (t = 0 ∨ t = 6 ∨ t = 8) then some env.randomVendor
      else none := by
  obtain ⟨d1, hd, rfl⟩ := buildDraft_ok_decomp env cfg t n st d st' hb
  have hframe := dispatch_ok_frame env cfg t (initialDraft env cfg n) d1 st st' hd
  rw [applySign_vendorField, applyMultiSign_vendorField,
    (applyMultiSigSender_frame env cfg t (applyVendorField env cfg t d1)).2.2.2.1,
    applyVendorField_value env cfg t d1 (hframe.1.trans rfl) hrv]

/-- Witness for C6: a transfer with no configured value and randomization on
gets the random vendor field. -/
theorem vendor_field_attachment_witness :
    vendorOf (buildDraft baseEnv baseCfg 0 1 st0) = some "0.123456" := by
  have h := vendor_field_attachment baseEnv baseCfg 0 1 st0 _ _ (by decide) rfl
  exact h.trans (by decide)

/-- C2 (corrected, counterexample): with a verifier accepting only the first
issued nonce, a batch of 1 succeeds and submits, but a batch of 2 — whose
second transaction fails verification — aborts as a whole with an error and
nothing submitted, instead of submitting the successfully built first
transaction as a partial batch. -/
theorem batch_abort_counterexample :
    isOkL (runBatch envVerifyFirst baseCfg 0 1 st0).1 = true ∧
    (runBatch envVerifyFirst baseCfg 0 2 st0).1 = .error .VerificationFailed :=
  ⟨rfl, rfl⟩

/-- C2 (corrected): the batch loop's enclosing try/catch aborts the whole
request at the first per-transaction error — if an iteration's build fails,
the batch returns that error together with the state the failing iteration
left behind (nothing is submitted; the issued nonce stays consumed, and an
in-place htlc expiration write performed before the failing verification
gate is not rolled back) — and a submitted list always contains every
requested transaction, never a partial batch. -/
theorem batch_abort_on_error :
    (∀ (env : Env) (cfg : Config) (t q : Nat) (st : State) (e : TxError) (st2 : State),
      buildOne env cfg t (issueNonce cfg.startNonce (seedFor env cfg) st.nonces (senderPk env cfg)).1 { st with nonces := (issueNonce cfg.startNonce (seedFor env cfg) st.nonces (senderPk env cfg)).2 } = (.error e, st2) →
      runBatch env cfg t (q + 1) st = (.error e, st2)) ∧
    (∀ (env : Env) (cfg : Config) (t q : Nat) (st : State) (l : List Draft) (st2 : State),
      runBatch env cfg t q st = (.ok l, st2) → l.length = q) := by
  constructor
  · intro env cfg t q st e st2 h
    simp only [runBatch]
    rw [h]
  · intro env cfg t q
    induction q with
    | zero =>
      intro st l st2 h
      simp only [runBatch, Prod.mk.injEq, Except.ok.injEq] at h
      obtain ⟨rfl, rfl⟩ := h
      rfl
    | succ q ih =>
      intro st l st2 h
      simp only [runBatch] at h
      split at h
      · simp at h
      · rename_i d2 st3 heq
        split at h
        · rename_i ds st4 heq2
          simp only [Prod.mk.injEq, Except.ok.injEq] at h
          obtain ⟨rfl, rfl⟩ := h
          simp [ih st3 ds st4 heq2]
        · simp at h

/-- Witness for C2: an htlc-lock batch with an always-failing verifier
aborts at its first transaction with nothing submitted; the issued nonce
stays consumed AND the in-place expiration write-back (50 resolved to 150
at network time 100, performed before the failing gate) survives the
abort. -/
theorem batch_abort_on_error_witness :
    runBatch envVerifyNone baseCfg 8 1 ⟨[], 50⟩
      = (.error .VerificationFailed,
         { nonces := [("pk:sender secret", 8)], htlcLockExpirationValue := 150 }) :=
  batch_abort_on_error.1 envVerifyNone baseCfg 8 0 ⟨[], 50⟩ .VerificationFailed _ rfl

end CoreTx
